import Mathlib

/-!
Verification of the lancedb-csharp pinvoke boundary layer.

This file gives a shallow embedding, in Lean, of the boundary-crossing
machinery of the `pinvoke` crate (src/pinvoke/src/lib.rs, ffi.rs, macros.rs,
query.rs, table.rs): nullable raw pointers become `Option`, the completion
callback's two pointer arguments become a pair of `Option`s, the per-runtime
atomic load counters become a `Nat`-valued function, Arc strong counts become
a `Nat`, and the Arrow C Data Interface descriptor structs become records
whose fields model the release-callback pointer, the remaining struct bytes
and the (opaque) converter's verdict on those bytes.  Fallible external
stages (the delegated lancedb calls, the arrow converters, JSON parsing) are
universally quantified `Except` oracles, so every theorem holds for every
possible behaviour of the delegated library.
-/

namespace LancedbPinvoke

/-- A nullable raw pointer to a value of type `α`: `none` models null. -/
abbrev Ptr (α : Type) := Option α

/-- The two arguments of one completion-callback invocation
(type `FfiCallback` in lib.rs line 87 / ffi.rs line 12): `result` models the
`*const c_void` first argument and `error` the `*const c_char` second
argument, with `none` for null. -/
structure CbArgs where
  result : Option Nat
  error : Option String
deriving DecidableEq

/-- Model of the string sanitisation in `callback_error` (ffi.rs 15-18):
`CString::new(msg).unwrap_or_default()` yields the empty C string when the
message holds an interior NUL byte, and the message itself otherwise. -/
def cbSanitize (msg : String) : String :=
  if msg.data.contains (Char.ofNat 0) then "" else msg

/-- Model of `callback_error` (ffi.rs 14-18): invokes the completion with a
null result pointer and an always non-null error string. -/
def callback_error (msg : String) : CbArgs :=
  ⟨none, some (cbSanitize msg)⟩

/-- Casting an integer to the result pointer, as `table_count_rows`
(table.rs 65) does with `count as *const c_void`: the integer zero becomes
the null pointer. -/
def natToPtr (n : Nat) : Option Nat :=
  if n = 0 then none else some n

/-! ## Error side-channel (ffi.rs 20-41) -/

/-- Model of `set_last_error` (ffi.rs 24-29): the thread-local slot is
assigned `CString::new(msg).ok()`, which is `none` exactly when the message
holds an interior NUL byte; any prior value is overwritten. -/
def set_last_error (_slot : Option String) (msg : String) : Option String :=
  if msg.data.contains (Char.ofNat 0) then none else some msg

/-- Model of `ffi_get_last_error` (ffi.rs 33-41): `take`s the slot, returning
its previous contents (null if empty) and leaving the slot empty. The first
component is the returned pointer, the second the slot afterwards. -/
def ffi_get_last_error (slot : Option String) : Option String × Option String :=
  (slot, none)

/-! ## Arrow schema model (ffi.rs 54-59) -/

/-- The Arrow logical data types this development needs. -/
inductive ArrowDataType
  | int32
  | int64
  | float32
  | utf8
deriving DecidableEq

/-- An Arrow schema field: name, logical type and nullability. -/
structure ArrowField where
  name : String
  dtype : ArrowDataType
  nullable : Bool
deriving DecidableEq

/-- Model of `minimal_schema` (ffi.rs 54-59):
`Schema::new(vec![Field::new("id", DataType::Int32, false)])`. -/
def minimal_schema : List ArrowField :=
  [⟨"id", ArrowDataType.int32, false⟩]

/-! ## Arrow C Data Interface descriptors (ffi.rs 152-233) -/

/-- Abstraction of an Arrow C Data Interface descriptor struct
(`FFI_ArrowArray` / `FFI_ArrowSchema`): `release` models the release-callback
pointer (with `none` for null, as in a zeroed struct), `payload` the
remaining struct bytes, and `conv` the value the opaque arrow converter
(`from_ffi`, `DataType::try_from` plus the Struct-type check) produces from
those bytes, with `none` when conversion fails. -/
structure FfiDescriptor (α : Type) where
  release : Option Nat
  payload : Nat
  conv : Option α
deriving DecidableEq

/-- A descriptor whose memory has been overwritten with zero bytes
(`ptr::write_bytes(p, 0, 1)`): null release callback, zero payload, and a
zeroed struct is not convertible. -/
def zeroedDesc : FfiDescriptor α :=
  ⟨none, 0, none⟩

/-- The observable effect of invoking a descriptor's release callback. -/
inductive ReleaseEffect
  | noop
  | frees
deriving DecidableEq

/-- Invoking the release callback stored in a descriptor: per the Arrow C
Data Interface contract a null release pointer (as left by zeroing) makes
the release a no-op, while a live pointer frees the backing buffers. -/
def invokeRelease (d : FfiDescriptor α) : ReleaseEffect :=
  match d.release with
  | none => .noop
  | some _ => .frees

/-- Model of `import_schema` (ffi.rs 179-195): a null pointer is an input
error with the source untouched; otherwise the struct is read, the source
overwritten with zero bytes, and the read value converted.  Returns the
result together with the post-call contents of the source location. -/
def import_schema (schema_ptr : Ptr (FfiDescriptor α)) :
    Except String α × Ptr (FfiDescriptor α) :=
  match schema_ptr with
  | none => (.error "C Data schema pointer is null", none)
  | some d =>
      match d.conv with
      | some v => (.ok v, some zeroedDesc)
      | none => (.error "Failed to import C Data schema", some zeroedDesc)

/-- Model of `import_record_batch` (ffi.rs 158-175): both pointers are
null-checked up front (sources untouched on that error); otherwise both
structs are read and zeroed before the fallible `from_ffi` conversion runs.
Returns the result and the post-call contents of the two source
locations. -/
def import_record_batch (array_ptr : Ptr (FfiDescriptor Nat))
    (schema_ptr : Ptr (FfiDescriptor Nat)) :
    Except String Nat × Ptr (FfiDescriptor Nat) × Ptr (FfiDescriptor Nat) :=
  match array_ptr, schema_ptr with
  | none, s => (.error "C Data array or schema pointer is null", none, s)
  | a, none => (.error "C Data array or schema pointer is null", a, none)
  | some a, some s =>
      match a.conv, s.conv with
      | some va, some _ => (.ok va, some zeroedDesc, some zeroedDesc)
      | _, _ => (.error "Failed to import C Data", some zeroedDesc, some zeroedDesc)

/-- The loop of `import_batches` (ffi.rs 214-222): each array struct is read,
zeroed, then converted, in index order; a conversion failure returns early,
leaving the structs after it untouched.  Returns the converted batches (or
the error) and the post-call contents of the array region. -/
def importBatchesLoop :
    List (FfiDescriptor Nat) → Except String (List Nat) × List (FfiDescriptor Nat)
  | [] => (.ok [], [])
  | d :: ds =>
      match d.conv with
      | none => (.error "Failed to import C Data batch", zeroedDesc :: ds)
      | some v =>
          match importBatchesLoop ds with
          | (.ok vs, mem) => (.ok (v :: vs), zeroedDesc :: mem)
          | (.error e, mem) => (.error e, zeroedDesc :: mem)

/-- Model of `import_batches` (ffi.rs 201-233): the list models the `count`
contiguous array structs behind the `arrays` pointer.  Null pointers or a
zero count are an input error with all sources untouched; otherwise the
schema struct is read and zeroed, every array struct is read, zeroed and
converted in order, and finally the schema value is converted. -/
def import_batches (arrays : Ptr (List (FfiDescriptor Nat)))
    (schema : Ptr (FfiDescriptor Nat)) :
    Except String (List Nat × Nat)
      × Ptr (List (FfiDescriptor Nat)) × Ptr (FfiDescriptor Nat) :=
  match arrays, schema with
  | none, s => (.error "C Data arrays/schema pointer is null or count is 0", none, s)
  | a, none => (.error "C Data arrays/schema pointer is null or count is 0", a, none)
  | some ds, some sd =>
      if ds.isEmpty then
        (.error "C Data arrays/schema pointer is null or count is 0", some ds, some sd)
      else
        match importBatchesLoop ds with
        | (.error e, mem) => (.error e, some mem, some zeroedDesc)
        | (.ok vs, mem) =>
            match sd.conv with
            | some sv => (.ok (vs, sv), some mem, some zeroedDesc)
            | none =>
                (.error "Failed to import C Data schema", some mem, some zeroedDesc)

/-- The schema-selection step of `database_create_empty_table`
(lib.rs 204-214): a null `schema_cdata` pointer selects `minimal_schema`;
a non-null pointer goes through `import_schema`, whose failure is reported
before any task is dispatched. -/
def create_empty_table_schema
    (schema_cdata : Ptr (FfiDescriptor (List ArrowField))) :
    Except String (List ArrowField) :=
  match schema_cdata with
  | none => .ok minimal_schema
  | some d => (import_schema (some d)).1

/-! ## Theorems for claims C9 and C10 -/

/-- C9: `ffi_get_last_error` atomically takes (reads and clears) the calling
thread's last-error slot: it returns the stored error string and clears the
slot, returns null when the slot is empty, and two consecutive calls with no
intervening `set_last_error` return the stored value then null. -/
theorem C9_get_last_error_takes (slot : Option String) (msg : String)
    (hmsg : msg.data.contains (Char.ofNat 0) = false) :
    ffi_get_last_error slot = (slot, none)
    ∧ ffi_get_last_error (none : Option String) = (none, none)
    ∧ ffi_get_last_error (ffi_get_last_error slot).2 = (none, none)
    ∧ ffi_get_last_error (set_last_error slot msg) = (some msg, none)
    ∧ ffi_get_last_error (ffi_get_last_error (set_last_error slot msg)).2
        = (none, none) := by
  refine ⟨rfl, rfl, rfl, ?_, rfl⟩
  have hmem : Char.ofNat 0 ∉ msg.data := by simpa using hmsg
  simp [ffi_get_last_error, set_last_error, hmem]

/-- Witness for C9 at a concrete slot and message. -/
theorem C9_get_last_error_takes_witness :
    ffi_get_last_error (some "prior") = (some "prior", none)
    ∧ ffi_get_last_error (none : Option String) = (none, none)
    ∧ ffi_get_last_error (ffi_get_last_error (some "prior")).2 = (none, none)
    ∧ ffi_get_last_error (set_last_error (some "prior") "boom") = (some "boom", none)
    ∧ ffi_get_last_error
        (ffi_get_last_error (set_last_error (some "prior") "boom")).2
        = (none, none) :=
  C9_get_last_error_takes (some "prior") "boom" (by decide)

/-- C10: calling `database_create_empty_table` with a null schema descriptor
pointer raises no error: the schema used is the default `minimal_schema`,
exactly one non-nullable Int32 field named "id". -/
theorem C10_null_schema_uses_default :
    create_empty_table_schema none = .ok minimal_schema
    ∧ minimal_schema = [⟨"id", ArrowDataType.int32, false⟩] :=
  ⟨rfl, rfl⟩

/-! ## Opaque handle protocol (macros.rs) -/

/-- The strong reference count of the `Arc` cell behind an opaque handle. -/
structure ArcState where
  strong : Nat
deriving DecidableEq

/-- The object is destroyed exactly when the strong count reaches zero. -/
def ArcState.destroyed (s : ArcState) : Bool :=
  s.strong == 0

/-- Outcome of an FFI operation that may hit a failed assertion: `assert!`
on a null pointer aborts the call instead of returning. -/
inductive FfiOutcome (α : Type)
  | ok (value : α)
  | trap (msg : String)
deriving DecidableEq

/-- Model of `ffi_borrow` (macros.rs 35-40): asserts the pointer is non-null
and returns the pointee as a borrowed reference; the strong count is not
touched. -/
def ffi_borrow (ptr : Ptr α) (s : ArcState) : FfiOutcome α × ArcState :=
  match ptr with
  | none => (.trap "pointer is null", s)
  | some v => (.ok v, s)

/-- Model of `ffi_clone_arc` (macros.rs 51-59): asserts the pointer is
non-null, atomically increments the strong count, then materialises an owned
`Arc` from the raw pointer; the caller's raw handle is not consumed. -/
def ffi_clone_arc (ptr : Ptr α) (s : ArcState) : FfiOutcome α × ArcState :=
  match ptr with
  | none => (.trap "pointer is null", s)
  | some v => (.ok v, ⟨s.strong + 1⟩)

/-- Model of `ffi_free` (macros.rs 69-75), the release routine behind
`table_close` and `database_close`: a null pointer is a no-op; otherwise the
`Arc` reconstructed from the raw pointer is dropped, decrementing the strong
count (destroying the object when it reaches zero). -/
def ffi_free (ptr : Ptr α) (s : ArcState) : ArcState :=
  match ptr with
  | none => s
  | some _ => ⟨s.strong - 1⟩

/-- Dropping the owned `Arc` held by a finished async task: one decrement of
the strong count. -/
def dropOwnedArc (s : ArcState) : ArcState :=
  ⟨s.strong - 1⟩

/-- `n` consecutive `ffi_borrow` calls on the same non-null handle,
threading the reference-count state. -/
def borrowN (v : Nat) : Nat → ArcState → ArcState
  | 0, s => s
  | n + 1, s => borrowN v n (ffi_borrow (some v) s).2

/-- Iterated borrowing never changes the reference-count state. -/
theorem borrowN_id (v : Nat) : ∀ n s, borrowN v n s = s := by
  intro n
  induction n with
  | zero => intro s; rfl
  | succ m ih => intro s; exact ih s

/-! ## Async dispatcher (lib.rs 50-82) -/

/-- One iteration of the scan loop in `spawn` (lib.rs 66-72): the load of
runtime `i` replaces the current `(min_idx, min_load)` accumulator exactly
on a strict decrease. -/
def scanStep (loads : Nat → Nat) (acc : Nat × Nat) (i : Nat) : Nat × Nat :=
  if loads i < acc.2 then (i, loads i) else acc

/-- The `(min_idx, min_load)` accumulator after the scan loop of `spawn`
(lib.rs 63-72) has examined runtimes `0` through `k`: the loop starts from
`(0, loads 0)` and visits indices `1` to `n - 1` in increasing order. -/
def scanMin (loads : Nat → Nat) : Nat → Nat × Nat
  | 0 => (0, loads 0)
  | k + 1 => scanStep loads (scanMin loads k) (k + 1)

/-- The runtime index `spawn` selects for a pool of `n` runtimes. -/
def selectRuntime (loads : Nat → Nat) (n : Nat) : Nat :=
  (scanMin loads (n - 1)).1

/-- Ordered observable effects of `spawn` (lib.rs 74-77): the `fetch_add` on
the chosen counter strictly precedes the `Runtime::spawn` submission. -/
inductive SpawnEffect
  | fetchAdd (idx : Nat)
  | submit (idx : Nat)
deriving DecidableEq

/-- Model of `spawn` (lib.rs 58-82): scan the counters for the least-loaded
runtime, increment its counter, then submit.  Returns the updated counters
and the ordered effect list. -/
def spawn (loads : Nat → Nat) (n : Nat) : (Nat → Nat) × List SpawnEffect :=
  let idx := selectRuntime loads n
  (fun i => if i = idx then loads i + 1 else loads i,
   [SpawnEffect.fetchAdd idx, SpawnEffect.submit idx])

/-- How the submitted future finishes: with a success value, with an error
value, or by panicking. -/
inductive TaskOutcome
  | success
  | failure
  | panicked
deriving DecidableEq

/-- Model of the counter bookkeeping wrapped around the submitted future
(lib.rs 77-81): the `fetch_sub` runs only after `future.await` returns a
value, so a resolved future (success or error value) decrements the chosen
counter once, while a panic unwinds past the `fetch_sub` and skips it. -/
def taskCounterCleanup (idx : Nat) (outcome : TaskOutcome) (loads : Nat → Nat) :
    Nat → Nat :=
  match outcome with
  | .panicked => loads
  | _ => fun i => if i = idx then loads i - 1 else loads i

/-- The accumulator's load component always equals the load at the
accumulator's index component. -/
theorem scanMin_snd (loads : Nat → Nat) :
    ∀ k, (scanMin loads k).2 = loads (scanMin loads k).1 := by
  intro k
  induction k with
  | zero => rfl
  | succ m ih =>
      simp only [scanMin, scanStep]
      split
      · rfl
      · exact ih

/-- The accumulator's index stays within the scanned range. -/
theorem scanMin_fst_le (loads : Nat → Nat) :
    ∀ k, (scanMin loads k).1 ≤ k := by
  intro k
  induction k with
  | zero => exact Nat.le_refl 0
  | succ m ih =>
      simp only [scanMin, scanStep]
      split
      · exact Nat.le_refl _
      · exact Nat.le_succ_of_le ih

/-- The accumulator's load is a lower bound on every scanned load. -/
theorem scanMin_le (loads : Nat → Nat) :
    ∀ k j, j ≤ k → (scanMin loads k).2 ≤ loads j := by
  intro k
  induction k with
  | zero =>
      intro j hj
      have hj0 : j = 0 := Nat.le_zero.mp hj
      subst hj0
      exact Nat.le_refl _
  | succ m ih =>
      intro j hj
      simp only [scanMin, scanStep]
      rcases Nat.lt_or_ge (loads (m + 1)) ((scanMin loads m).2) with h | h
      · rw [if_pos h]
        rcases Nat.of_le_succ hj with hj' | hj'
        · exact Nat.le_of_lt (Nat.lt_of_lt_of_le h (ih j hj'))
        · subst hj'; exact Nat.le_refl _
      · rw [if_neg (Nat.not_lt.mpr h)]
        rcases Nat.of_le_succ hj with hj' | hj'
        · exact ih j hj'
        · subst hj'; exact h

/-- Every index strictly before the accumulator's index carries a strictly
larger load: the scan keeps the first index attaining the minimum. -/
theorem scanMin_first (loads : Nat → Nat) :
    ∀ k j, j < (scanMin loads k).1 → (scanMin loads k).2 < loads j := by
  intro k
  induction k with
  | zero =>
      intro j hj
      exact absurd hj (Nat.not_lt_zero j)
  | succ m ih =>
      intro j hj
      simp only [scanMin, scanStep] at hj ⊢
      rcases Nat.lt_or_ge (loads (m + 1)) ((scanMin loads m).2) with h | h
      · rw [if_pos h] at hj ⊢
        have hjm : j ≤ m := Nat.lt_succ_iff.mp hj
        exact Nat.lt_of_lt_of_le h (scanMin_le loads m j hjm)
      · rw [if_neg (Nat.not_lt.mpr h)] at hj ⊢
        exact ih j hj

/-! ## Theorems for claims C4, C5, C6 and C8 -/

/-- C4: `spawn` submits the task to the runtime whose inflight counter held
the strictly smallest value during the scan (ties broken by the lowest
index), and that counter is incremented before the task is submitted. -/
theorem C4_spawn_least_loaded (loads : Nat → Nat) (n : Nat) (h : 1 ≤ n) :
    selectRuntime loads n < n
    ∧ (∀ j, j < n → loads (selectRuntime loads n) ≤ loads j)
    ∧ (∀ j, j < selectRuntime loads n → loads (selectRuntime loads n) < loads j)
    ∧ (spawn loads n).1 (selectRuntime loads n) = loads (selectRuntime loads n) + 1
    ∧ (∀ i, i ≠ selectRuntime loads n → (spawn loads n).1 i = loads i)
    ∧ (spawn loads n).2 = [SpawnEffect.fetchAdd (selectRuntime loads n),
        SpawnEffect.submit (selectRuntime loads n)] := by
  have hsnd := scanMin_snd loads (n - 1)
  refine ⟨?_, ?_, ?_, ?_, ?_, rfl⟩
  · exact Nat.lt_of_le_of_lt (scanMin_fst_le loads (n - 1)) (Nat.sub_lt h Nat.one_pos)
  · intro j hj
    have hj' : j ≤ n - 1 := Nat.le_sub_one_of_lt hj
    have := scanMin_le loads (n - 1) j hj'
    rw [hsnd] at this
    exact this
  · intro j hj
    have := scanMin_first loads (n - 1) j hj
    rw [hsnd] at this
    exact this
  · simp [spawn]
  · intro i hi
    simp [spawn, hi]

/-- Witness for C4 on the concrete pool `loads = [2, 1, 1]`, `n = 3`: the
selected runtime is index 1, the first index attaining the minimum load. -/
theorem C4_spawn_least_loaded_witness :
    selectRuntime (fun i => if i = 0 then 2 else 1) 3 < 3
    ∧ (∀ j, j < 3 →
        (fun i => if i = 0 then 2 else 1) (selectRuntime (fun i => if i = 0 then 2 else 1) 3)
          ≤ (fun i => if i = 0 then 2 else 1) j)
    ∧ (∀ j, j < selectRuntime (fun i => if i = 0 then 2 else 1) 3 →
        (fun i => if i = 0 then 2 else 1) (selectRuntime (fun i => if i = 0 then 2 else 1) 3)
          < (fun i => if i = 0 then 2 else 1) j)
    ∧ (spawn (fun i => if i = 0 then 2 else 1) 3).1
        (selectRuntime (fun i => if i = 0 then 2 else 1) 3)
        = (fun i => if i = 0 then 2 else 1) (selectRuntime (fun i => if i = 0 then 2 else 1) 3) + 1
    ∧ (∀ i, i ≠ selectRuntime (fun i => if i = 0 then 2 else 1) 3 →
        (spawn (fun i => if i = 0 then 2 else 1) 3).1 i = (fun i => if i = 0 then 2 else 1) i)
    ∧ (spawn (fun i => if i = 0 then 2 else 1) 3).2
        = [SpawnEffect.fetchAdd (selectRuntime (fun i => if i = 0 then 2 else 1) 3),
           SpawnEffect.submit (selectRuntime (fun i => if i = 0 then 2 else 1) 3)] :=
  C4_spawn_least_loaded (fun i => if i = 0 then 2 else 1) 3 (by decide)

/-- C5 (amended): the chosen counter is decremented exactly once when the
submitted future resolves with a value — success or failure — restoring the
pre-submission counters; but a panicking future skips the decrement, leaving
the chosen counter elevated by one. -/
theorem C5_decrement_on_resolution (loads : Nat → Nat) (n : Nat) :
    taskCounterCleanup (selectRuntime loads n) TaskOutcome.success ((spawn loads n).1) = loads
    ∧ taskCounterCleanup (selectRuntime loads n) TaskOutcome.failure ((spawn loads n).1) = loads
    ∧ taskCounterCleanup (selectRuntime loads n) TaskOutcome.panicked ((spawn loads n).1)
        (selectRuntime loads n)
        = loads (selectRuntime loads n) + 1 := by
  refine ⟨?_, ?_, ?_⟩
  · funext i
    by_cases hi : i = selectRuntime loads n <;> simp [taskCounterCleanup, spawn, hi]
  · funext i
    by_cases hi : i = selectRuntime loads n <;> simp [taskCounterCleanup, spawn, hi]
  · simp [taskCounterCleanup, spawn]

/-- C5 counterexample to the claim as stated: on the two-runtime pool with
all counters at zero, a task whose future panics leaves the selected
counter at 1, not at its pre-submission value 0. -/
theorem C5_panic_skips_decrement :
    taskCounterCleanup (selectRuntime (fun _ => 0) 2) TaskOutcome.panicked
        ((spawn (fun _ => 0) 2).1) (selectRuntime (fun _ => 0) 2)
      = 1
    ∧ (fun _ => 0 : Nat → Nat) (selectRuntime (fun _ => 0) 2) = 0 := by
  constructor
  · simp [taskCounterCleanup, spawn]
  · rfl

/-- C6: for a non-null handle, `ffi_clone_arc` increments the strong count
and yields an owned reference without consuming the caller's input; after
the async task drops the clone, the count returns to its pre-clone value,
the object is not destroyed, and the original handle still borrows; a null
handle traps. -/
theorem C6_clone_for_async (v : Nat) (s : ArcState) (h : 1 ≤ s.strong) :
    (ffi_clone_arc (some v) s).1 = FfiOutcome.ok v
    ∧ (ffi_clone_arc (some v) s).2.strong = s.strong + 1
    ∧ dropOwnedArc (ffi_clone_arc (some v) s).2 = s
    ∧ (dropOwnedArc (ffi_clone_arc (some v) s).2).destroyed = false
    ∧ (ffi_borrow (some v) (dropOwnedArc (ffi_clone_arc (some v) s).2)).1
        = FfiOutcome.ok v
    ∧ (ffi_clone_arc (none : Ptr Nat) s).1 = FfiOutcome.trap "pointer is null" := by
  refine ⟨rfl, rfl, rfl, ?_, rfl, rfl⟩
  have : s.strong ≠ 0 := Nat.pos_iff_ne_zero.mp h
  simp [dropOwnedArc, ffi_clone_arc, ArcState.destroyed, this]

/-- Witness for C6 at a single outstanding handle (strong count 1). -/
theorem C6_clone_for_async_witness :
    (ffi_clone_arc (some 5) ⟨1⟩).1 = FfiOutcome.ok 5
    ∧ (ffi_clone_arc (some 5) ⟨1⟩).2.strong = 1 + 1
    ∧ dropOwnedArc (ffi_clone_arc (some 5) ⟨1⟩).2 = ⟨1⟩
    ∧ (dropOwnedArc (ffi_clone_arc (some 5) ⟨1⟩).2).destroyed = false
    ∧ (ffi_borrow (some 5) (dropOwnedArc (ffi_clone_arc (some 5) ⟨1⟩).2)).1
        = FfiOutcome.ok 5
    ∧ (ffi_clone_arc (none : Ptr Nat) ⟨1⟩).1 = FfiOutcome.trap "pointer is null" :=
  C6_clone_for_async 5 ⟨1⟩ (by decide)

/-- C8: `ffi_borrow` on a non-null handle never changes the reference count,
so N consecutive borrows leave the object alive, and a single release
afterwards destroys it; borrow on a null handle traps. -/
theorem C8_borrow_is_refcount_neutral (v : Nat) (nBorrows : Nat) (s : ArcState)
    (h : s.strong = 1) :
    borrowN v nBorrows s = s
    ∧ (borrowN v nBorrows s).destroyed = false
    ∧ (ffi_free (some v) (borrowN v nBorrows s)).destroyed = true
    ∧ (ffi_borrow (none : Ptr Nat) s).1 = FfiOutcome.trap "pointer is null" := by
  refine ⟨borrowN_id v nBorrows s, ?_, ?_, rfl⟩
  · rw [borrowN_id v nBorrows s]
    simp [ArcState.destroyed, h]
  · rw [borrowN_id v nBorrows s]
    simp [ffi_free, ArcState.destroyed, h]

/-- Witness for C8 with three consecutive borrows on a handle whose strong
count is 1. -/
theorem C8_borrow_is_refcount_neutral_witness :
    borrowN 7 3 ⟨1⟩ = ⟨1⟩
    ∧ (borrowN 7 3 ⟨1⟩).destroyed = false
    ∧ (ffi_free (some 7) (borrowN 7 3 ⟨1⟩)).destroyed = true
    ∧ (ffi_borrow (none : Ptr Nat) ⟨1⟩).1 = FfiOutcome.trap "pointer is null" :=
  C8_borrow_is_refcount_neutral 7 3 ⟨1⟩ rfl

/-! ## Theorems for claim C7 -/

/-- When the import loop succeeds, every array struct in the source region
has been overwritten with zero bytes. -/
theorem importBatchesLoop_ok_zeroes :
    ∀ (l : List (FfiDescriptor Nat)) (vs : List Nat) (mem : List (FfiDescriptor Nat)),
      importBatchesLoop l = (Except.ok vs, mem) →
      mem = List.replicate l.length zeroedDesc := by
  intro l
  induction l with
  | nil =>
      intro vs mem h
      simp only [importBatchesLoop, Prod.mk.injEq] at h
      simp [← h.2]
  | cons d ds ih =>
      intro vs mem h
      cases hconv : d.conv with
      | none =>
          simp [importBatchesLoop, hconv] at h
      | some v =>
          rcases hrec : importBatchesLoop ds with ⟨res, mem'⟩
          cases res with
          | error e =>
              simp [importBatchesLoop, hconv, hrec] at h
          | ok vs' =>
              simp only [importBatchesLoop, hconv, hrec, Prod.mk.injEq] at h
              have hmem' := ih vs' mem' (by rw [hrec])
              simp [← h.2, hmem', List.replicate]

/-- A concrete convertible descriptor, used by witnesses. -/
def goodDesc : FfiDescriptor Nat := ⟨some 9, 7, some 3⟩

/-- C7: on every successful import (`import_record_batch`, `import_schema`,
`import_batches`), each source descriptor struct that was read has been
overwritten with zero bytes before the import returns, so invoking the
original owner's release mechanism on the zeroed source afterwards is a
no-op and nothing double-frees. -/
theorem C7_import_zeroes_sources
    (d1 d2 sd sd2 : FfiDescriptor Nat) (l : List (FfiDescriptor Nat))
    (v1 v2 : Nat) (vb : List Nat × Nat)
    (h1 : (import_record_batch (some d1) (some d2)).1 = Except.ok v1)
    (h2 : (import_schema (some sd)).1 = Except.ok v2)
    (h3 : (import_batches (some l) (some sd2)).1 = Except.ok vb) :
    (import_record_batch (some d1) (some d2)).2 = (some zeroedDesc, some zeroedDesc)
    ∧ (import_schema (some sd)).2 = some zeroedDesc
    ∧ (import_batches (some l) (some sd2)).2
        = (some (List.replicate l.length zeroedDesc), some zeroedDesc)
    ∧ invokeRelease (zeroedDesc : FfiDescriptor Nat) = ReleaseEffect.noop := by
  refine ⟨?_, ?_, ?_, rfl⟩
  · rcases hc1 : d1.conv <;> rcases hc2 : d2.conv <;>
      simp [import_record_batch, hc1, hc2]
  · rcases hc : sd.conv <;> simp [import_schema, hc]
  · by_cases hemp : l.isEmpty
    · exfalso
      simp [import_batches, hemp] at h3
    · rcases hloop : importBatchesLoop l with ⟨res, mem⟩
      cases res with
      | error e =>
          exfalso
          simp [import_batches, hemp, hloop] at h3
      | ok vs =>
          have hmem := importBatchesLoop_ok_zeroes l vs mem hloop
          cases hconv : sd2.conv with
          | none =>
              exfalso
              simp [import_batches, hemp, hloop, hconv] at h3
          | some sv =>
              simp [import_batches, hemp, hloop, hconv, hmem]

/-- Witness for C7 on concrete convertible descriptors. -/
theorem C7_import_zeroes_sources_witness :
    (import_record_batch (some goodDesc) (some goodDesc)).2
        = (some zeroedDesc, some zeroedDesc)
    ∧ (import_schema (some goodDesc)).2 = some zeroedDesc
    ∧ (import_batches (some [goodDesc]) (some goodDesc)).2
        = (some (List.replicate [goodDesc].length zeroedDesc), some zeroedDesc)
    ∧ invokeRelease (zeroedDesc : FfiDescriptor Nat) = ReleaseEffect.noop :=
  C7_import_zeroes_sources goodDesc goodDesc goodDesc goodDesc [goodDesc]
    3 3 ([3], 3) rfl rfl rfl

/-! ## Completion invocations of the callback-based entry points
(claim C1) -/

/-- Poll outcome of the underlying record-batch stream inside
`stream_next` (query.rs 724-748): a next batch, a stream error, or
exhaustion. -/
inductive StreamPoll
  | batch (data : Nat)
  | errored (msg : String)
  | exhausted
deriving DecidableEq

/-- The completion invocation performed by `stream_next` (query.rs 713-750):
a batch is exported as a boxed descriptor pair (the fallible
`FFI_ArrowSchema::try_from` conversion modelled by `conv`), a stream error
goes through `callback_error`, and exhaustion signals with a null result and
a null error. -/
def stream_next_cb (p : StreamPoll) (conv : Except String Nat) : CbArgs :=
  match p with
  | .batch _ =>
      match conv with
      | .ok ptr => ⟨some ptr, none⟩
      | .error e => callback_error e
  | .errored e => callback_error e
  | .exhausted => ⟨none, none⟩

/-- The completion invocation performed by `table_tags_create`
(table.rs 976-985): success carries no payload and is signalled with a null
result and a null error; failures go through `callback_error`. -/
def table_tags_create_cb (r : Except String Unit) : CbArgs :=
  match r with
  | .ok _ => ⟨none, none⟩
  | .error e => callback_error e

/-- The completion invocation performed by `table_index_stats`
(table.rs 1132-1149): existing stats are delivered as a boxed struct
pointer, an absent index as a null result with a null error, and failures
through `callback_error`. -/
def table_index_stats_cb (r : Except String (Option Nat)) : CbArgs :=
  match r with
  | .ok (some stats) => ⟨some stats, none⟩
  | .ok none => ⟨none, none⟩
  | .error e => callback_error e

/-- The completion invocation performed by `table_count_rows`
(table.rs 62-69): the row count itself is cast to the result pointer, so a
zero count is delivered as a null result with a null error. -/
def table_count_rows_cb (r : Except String Nat) : CbArgs :=
  match r with
  | .ok c => ⟨natToPtr c, none⟩
  | .error e => callback_error e

/-- The claimed completion contract: exactly one of (result non-null, error
null) or (result null, error non-null). -/
def exactlyOneCb (a : CbArgs) : Prop :=
  (a.result.isSome = true ∧ a.error = none)
    ∨ (a.result = none ∧ a.error.isSome = true)

instance (a : CbArgs) : Decidable (exactlyOneCb a) := by
  unfold exactlyOneCb
  infer_instance

/-- C1 counterexample: three completion invocations in the code pass both
arguments null — `stream_next` at end of stream, `table_tags_create` on
success, and `table_index_stats` when the index does not exist — violating
the claimed exactly-one contract. -/
theorem C1_both_null_completions :
    stream_next_cb StreamPoll.exhausted (Except.ok 1) = ⟨none, none⟩
    ∧ ¬ exactlyOneCb (stream_next_cb StreamPoll.exhausted (Except.ok 1))
    ∧ table_tags_create_cb (Except.ok ()) = ⟨none, none⟩
    ∧ ¬ exactlyOneCb (table_tags_create_cb (Except.ok ()))
    ∧ table_index_stats_cb (Except.ok none) = ⟨none, none⟩
    ∧ ¬ exactlyOneCb (table_index_stats_cb (Except.ok none))
    ∧ table_count_rows_cb (Except.ok 0) = ⟨none, none⟩
    ∧ ¬ exactlyOneCb (table_count_rows_cb (Except.ok 0)) := by
  decide

/-- C1 (amended): every completion invocation passes at most one non-null
argument — never both non-null — and every failure invocation goes through
`callback_error`, which always passes a null result and a non-null error
string; both-null invocations occur exactly on payload-free successes
(`table_tags_create`-style unit results, a zero integer payload, stream
exhaustion, and an absent index). -/
theorem C1_completion_one_sided :
    (∀ msg, (callback_error msg).result = none
      ∧ (callback_error msg).error.isSome = true)
    ∧ (∀ p conv, (stream_next_cb p conv).result = none
        ∨ (stream_next_cb p conv).error = none)
    ∧ (∀ e conv, stream_next_cb (StreamPoll.errored e) conv = callback_error e)
    ∧ (∀ r, (table_tags_create_cb r).result = none)
    ∧ (∀ e, table_tags_create_cb (Except.error e) = callback_error e)
    ∧ (∀ r, (table_index_stats_cb r).result = none
        ∨ (table_index_stats_cb r).error = none)
    ∧ (∀ e, table_index_stats_cb (Except.error e) = callback_error e)
    ∧ (∀ r, (table_count_rows_cb r).result = none
        ∨ (table_count_rows_cb r).error = none)
    ∧ (∀ e, table_count_rows_cb (Except.error e) = callback_error e) := by
  refine ⟨fun msg => ⟨rfl, rfl⟩, ?_, fun e conv => rfl, ?_, fun e => rfl, ?_,
    fun e => rfl, ?_, fun e => rfl⟩
  · intro p conv
    cases p with
    | batch d =>
        cases conv with
        | ok ptr => exact Or.inr rfl
        | error e => exact Or.inl rfl
    | errored e => exact Or.inl rfl
    | exhausted => exact Or.inl rfl
  · intro r
    cases r with
    | ok u => rfl
    | error e => rfl
  · intro r
    cases r with
    | error e => exact Or.inl rfl
    | ok s =>
        cases s with
        | none => exact Or.inl rfl
        | some v => exact Or.inr rfl
  · intro r
    cases r with
    | ok c => exact Or.inr rfl
    | error e => exact Or.inl rfl

/-! ## Entry-point callback traces (claim C2) -/

/-- A completion invocation observed at the boundary, tagged by the thread
performing it: `sync` on the calling thread before the entry point returns,
`fromPool` from the executor task after dispatch. -/
inductive CbInvocation
  | sync (args : CbArgs)
  | fromPool (args : CbArgs)
deriving DecidableEq

/-- Whether an invocation happens synchronously on the calling thread. -/
def CbInvocation.isSync : CbInvocation → Bool
  | .sync _ => true
  | .fromPool _ => false

/-- Observable behaviour of one entry-point call: either the process traps
on a failed null-pointer assertion (no callback ever fires), or the entry
point returns having caused this ordered list of callback invocations. -/
inductive EntryBehavior
  | trapped
  | invocations (l : List CbInvocation)
deriving DecidableEq

/-- Number of completion invocations an entry-point call causes. -/
def invocationCount : EntryBehavior → Nat
  | .trapped => 0
  | .invocations l => l.length

/-- Number of completion invocations fired synchronously on the calling
thread. -/
def syncCount : EntryBehavior → Nat
  | .trapped => 0
  | .invocations l => (l.filter CbInvocation.isSync).length

/-- The single completion invocation performed by the async body of
`execute_to_cdata_with_options` (query.rs 242-300), per the outcomes of its
four fallible stages: `execute_with_options`, `try_collect`,
`concat_batches`, and the `FFI_ArrowSchema` conversion. -/
def execute_to_cdata_cb (exec collect concatR conv : Except String Nat) : CbArgs :=
  match exec with
  | .error e => callback_error e
  | .ok _ =>
      match collect with
      | .error e => callback_error e
      | .ok _ =>
          match concatR with
          | .error e => callback_error e
          | .ok _ =>
              match conv with
              | .error e => callback_error e
              | .ok ptr => ⟨some ptr, none⟩

/-- Model of `query_execute` (query.rs 373-397): borrow the table handle
(trapping on null), then parse the JSON params and build the query eagerly —
each failure invoking the completion synchronously on the calling thread —
and otherwise dispatch the execution task, which invokes the completion
exactly once from the pool. -/
def query_execute_model (table_ptr : Ptr Unit) (parse build : Except String Unit)
    (exec collect concatR conv : Except String Nat) : EntryBehavior :=
  match table_ptr with
  | none => .trapped
  | some _ =>
      match parse with
      | .error e => .invocations [.sync (callback_error e)]
      | .ok _ =>
          match build with
          | .error e => .invocations [.sync (callback_error e)]
          | .ok _ =>
              .invocations [.fromPool (execute_to_cdata_cb exec collect concatR conv)]

/-- The single completion invocation performed by the async body of
`database_create_empty_table` (lib.rs 231-251), per the outcome of the
delegated `create_empty_table` builder execution. -/
def createTableExecCb (exec : Except String Nat) : CbArgs :=
  match exec with
  | .ok ptr => ⟨some ptr, none⟩
  | .error e => callback_error e

/-- Model of `database_create_empty_table` (lib.rs 190-252): clone the
connection handle (trapping on null), select the schema — a null descriptor
selects the default, a failing import invokes the completion synchronously —
then dispatch the creation task, which invokes the completion exactly once
from the pool. -/
def database_create_empty_table_model (connection_ptr : Ptr Unit)
    (schema_cdata : Ptr (FfiDescriptor (List ArrowField)))
    (exec : Except String Nat) : EntryBehavior :=
  match connection_ptr with
  | none => .trapped
  | some _ =>
      match schema_cdata with
      | none => .invocations [.fromPool (createTableExecCb exec)]
      | some d =>
          match (import_schema (some d)).1 with
          | .error e => .invocations [.sync (callback_error e)]
          | .ok _ => .invocations [.fromPool (createTableExecCb exec)]

/-! ## Theorems for claim C2 -/

/-- C2 counterexample: with a valid table handle but malformed params JSON,
`query_execute` invokes the completion synchronously on the calling thread
before the entry point returns; and with a null table handle, the assertion
traps and the callback never fires at all. -/
theorem C2_sync_callback_on_eager_error :
    query_execute_model (some ()) (Except.error "Invalid query params JSON")
        (Except.ok ()) (Except.ok 1) (Except.ok 1) (Except.ok 1) (Except.ok 1)
      = EntryBehavior.invocations
          [CbInvocation.sync (callback_error "Invalid query params JSON")]
    ∧ syncCount
        (query_execute_model (some ()) (Except.error "Invalid query params JSON")
          (Except.ok ()) (Except.ok 1) (Except.ok 1) (Except.ok 1) (Except.ok 1))
      = 1
    ∧ query_execute_model none (Except.ok ()) (Except.ok ())
        (Except.ok 1) (Except.ok 1) (Except.ok 1) (Except.ok 1)
      = EntryBehavior.trapped := by
  refine ⟨rfl, ?_, rfl⟩
  decide

/-- C2 (amended): for every entry-point call that does not trap on a null
handle assertion, the completion fires exactly once; it fires from the
executor task when all eager validation succeeds, but an eager
input-validation failure invokes it synchronously on the calling thread
before the entry point returns, and a null handle traps with no invocation
at all. -/
theorem C2_callback_fires_once (parse build : Except String Unit)
    (exec collect concatR conv exec2 : Except String Nat)
    (sc : Ptr (FfiDescriptor (List ArrowField))) :
    query_execute_model none parse build exec collect concatR conv
      = EntryBehavior.trapped
    ∧ invocationCount (query_execute_model (some ()) parse build
        exec collect concatR conv) = 1
    ∧ syncCount (query_execute_model (some ()) (Except.ok ()) (Except.ok ())
        exec collect concatR conv) = 0
    ∧ (∀ e, query_execute_model (some ()) (Except.error e) build
        exec collect concatR conv
        = EntryBehavior.invocations [CbInvocation.sync (callback_error e)])
    ∧ (∀ e, query_execute_model (some ()) (Except.ok ()) (Except.error e)
        exec collect concatR conv
        = EntryBehavior.invocations [CbInvocation.sync (callback_error e)])
    ∧ database_create_empty_table_model none sc exec2 = EntryBehavior.trapped
    ∧ invocationCount (database_create_empty_table_model (some ()) sc exec2) = 1
    ∧ syncCount (database_create_empty_table_model (some ()) none exec2) = 0 := by
  refine ⟨rfl, ?_, rfl, fun e => rfl, fun e => rfl, rfl, ?_, rfl⟩
  · cases parse with
    | error e => rfl
    | ok u =>
        cases build with
        | error e => rfl
        | ok u' => rfl
  · cases sc with
    | none => rfl
    | some d =>
        cases hc : d.conv with
        | none => simp [database_create_empty_table_model, import_schema, hc,
            invocationCount]
        | some s => simp [database_create_empty_table_model, import_schema, hc,
            invocationCount]

/-! ## Null-pointer discipline of the take entry points (claim C3) -/

/-- Result of `slice::from_raw_parts(ptr, len)` on a nullable pointer
(table.rs 1359, 1456): the source performs no null check, so a null pointer
is dereferenced. -/
inductive SliceRead
  | nullDeref
  | values (l : List Nat)
deriving DecidableEq

/-- Model of the unchecked `slice::from_raw_parts(p, len).to_vec()` call:
`none` models null, and the list models the `len` values behind the
pointer. -/
def from_raw_parts (ptr : Ptr (List Nat)) (len : Nat) : SliceRead :=
  match ptr with
  | none => .nullDeref
  | some l => .values (l.take len)

/-- Synchronous prelude outcome of a take-style entry point. -/
inductive TakePrelude
  | trapped
  | nullDeref
  | dispatched (values : List Nat)
deriving DecidableEq

/-- Model of the synchronous prelude of `table_take_offsets`
(table.rs 1350-1364): clone the table handle (trapping on null), then copy
the offsets slice out with `slice::from_raw_parts` — with no null check on
the `offsets` pointer. `table_take_row_ids` (table.rs 1447-1461) is
identical for its `row_ids` pointer. -/
def table_take_offsets_prelude (table_ptr : Ptr Unit)
    (offsets : Ptr (List Nat)) (offsets_len : Nat) : TakePrelude :=
  match table_ptr with
  | none => .trapped
  | some _ =>
      match from_raw_parts offsets offsets_len with
      | .nullDeref => .nullDeref
      | .values l => .dispatched l

/-- Synchronous prelude outcome of `vector_query_execute`. -/
inductive VecPrelude
  | trapped
  | syncError (args : CbArgs)
  | dispatched (values : List Nat)
deriving DecidableEq

/-- Model of the vector-slice handling of `vector_query_execute`
(query.rs 481-497): borrow the table handle (trapping on null), then
null-check the vector pointer, reporting a null vector through the
completion as an input error before reading the slice. -/
def vector_query_execute_prelude (table_ptr : Ptr Unit)
    (vector_ptr : Ptr (List Nat)) (vector_len : Nat) : VecPrelude :=
  match table_ptr with
  | none => .trapped
  | some _ =>
      match vector_ptr with
      | none => .syncError (callback_error "Vector pointer is null")
      | some v => .dispatched (v.take vector_len)

/-- C3: the stated convention holds at `vector_query_execute`, whose null
vector pointer is reported through the completion as an input error, but it
is broken at `table_take_offsets` (and `table_take_row_ids`): a null
`offsets` pointer with a non-zero length reaches `slice::from_raw_parts`
unchecked and is dereferenced. -/
theorem C3_null_offsets_dereferenced :
    table_take_offsets_prelude (some ()) none 1 = TakePrelude.nullDeref
    ∧ vector_query_execute_prelude (some ()) none 1
        = VecPrelude.syncError (callback_error "Vector pointer is null")
    ∧ (∀ l len, table_take_offsets_prelude (some ()) (some l) len
        = TakePrelude.dispatched (l.take len)) := by
  exact ⟨rfl, rfl, fun l len => rfl⟩

end LancedbPinvoke
